import Mathlib

/-!
Verification development for the creative-ai-agents orchestrator.

This file gives a shallow embedding, in Lean 4, of the parts of the
repository relevant to the frozen behavioural claims:

* `src/media/utils.py` — `snapshot_files` / `detect_new_files`
  (directory snapshot diffing), `run_workflow` (subprocess runner),
  `relative_to_root`;
* `src/media/base.py` — `BaseMediaPipeline.run` (artifact construction);
* `src/poets_cron_service_v3.py` — `ProcessLock.acquire` (file lock with
  stale-lock cleanup), `PoetsService.update_prompt_status`,
  `PoetsService._extract_and_validate_json` (JSON harvester),
  the tool-writings fast path of `PoetsService.run_generation_session`,
  `PoetsService.run_queue_processor` and
  `PoetsService._initialize_media_support` (endpoint-contact traces).

Python dictionaries are modelled as association lists in insertion order,
filesystem paths as lists of components, SQL tables as lists of records,
wall-clock instants as abstract tokens, and Python exceptions as `Except`
or explicit outcome types.  External libraries that the code calls
(`json.loads`, the SQLite driver's row storage) are abstracted as
function parameters where their internals are irrelevant to a claim.
-/

/-! ## Paths and directory snapshots (`src/media/utils.py`) -/

/-- A filesystem path, as a list of components (no separators inside a
component).  Relative paths of `snapshot_files` are relative to the
snapshot root. -/
abbrev FPath := List String

/-- POSIX rendering of a path, joining components with forward slashes
(the effect of `pathlib.PurePath.as_posix`). -/
def posixOf (p : FPath) : String := String.intercalate ("/") p

/-- Snapshot map built by `snapshot_files` (utils.py:29-44): relative
path of each regular file under the root, keyed to its
`(st_mtime_ns, st_size)` pair.  A Python dict is an association list
whose keys are distinct, in insertion order. -/
abbrev Snap := List (FPath × (Nat × Nat))

/-- Dictionary lookup `before[rel_path]` on a snapshot (first matching
key, as for a Python dict with unique keys). -/
def lookupSnap (s : Snap) (p : FPath) : Option (Nat × Nat) :=
  (s.find? (fun e => e.1 = p)).map (fun e => e.2)

/-- `detect_new_files` (utils.py:47-60).  The source recomputes the
`after` snapshot from the directory; here the current state of the
directory is passed as the `after` snapshot.  An entry is reported when
its relative path is absent from `before` or its `(mtime_ns, size)`
pair differs; reported paths are `root / rel_path`. -/
def detect_new_files (root : FPath) (after before : Snap) : List FPath :=
  (after.filter (fun e => decide (lookupSnap before e.1 ≠ some e.2))).map
    (fun e => root ++ e.1)

/-! ## Prompt rows and `update_prompt_status`
(`src/poets_cron_service_v3.py:635-684`) -/

/-- A row of the `prompts` table, restricted to the columns the
modelled operations read or write (see `create_prompts_table`,
poets_cron_service_v3.py:540-558, and `ensure_media_schema`). -/
structure PromptRow where
  id : Nat
  prompt_text : String
  prompt_type : String
  status : String
  priority : Nat
  created_at : Nat
  processed_at : Option String
  completed_at : Option String
  output_reference : Option Nat
  error_message : Option String
  artifact_status : Option String
  artifact_metadata : Option String
deriving DecidableEq, Repr

/-- `PoetsService.update_prompt_status` (poets_cron_service_v3.py:635-684)
applied to one row.  The SQL UPDATE's SET clause is built from the
`updates` dict: `status` always; `processed_at = now` when moving to
`processing`, `completed_at = now` when moving to `completed` or
`failed`; `error_message` when supplied, else cleared (set to NULL)
whenever the new status is not `failed`; `artifact_status` and
`artifact_metadata` only when supplied (the metadata argument is the
already-serialised JSON text). -/
def update_prompt_status (row : PromptRow) (status : String)
    (error_message : Option String) (artifact_status : Option String)
    (artifact_metadata : Option String) (now : String) : PromptRow :=
  let r1 := { row with status := status }
  let r2 :=
    if status = ("processing") then { r1 with processed_at := some now }
    else if status = ("completed") ∨ status = ("failed") then
      { r1 with completed_at := some now }
    else r1
  let r3 :=
    match error_message with
    | some e => { r2 with error_message := some e }
    | none =>
      if status ≠ ("failed") then { r2 with error_message := none } else r2
  let r4 :=
    match artifact_status with
    | some a => { r3 with artifact_status := some a }
    | none => r3
  match artifact_metadata with
  | some m => { r4 with artifact_metadata := some m }
  | none => r4

/-! ## Workflow runner (`src/media/utils.py:73-145`) -/

/-- `WorkflowResult` (utils.py:63-70).  The wall-clock duration
(a Python float measured with `time.monotonic`) is modelled as an
abstract tick count. -/
structure WorkflowResult where
  returncode : Int
  stdout : String
  stderr : String
  duration_seconds : Nat
deriving DecidableEq, Repr

/-- The last `n` characters of a string (the tail that
`process_media_prompt` stores via `[-2000:]`, and the "last 2 KiB"
the specification speaks about). -/
def tailChars (n : Nat) (s : String) : String :=
  ⟨s.data.drop (s.data.length - n)⟩

/-- The message of the `MediaPipelineError` raised by `run_workflow` on
a non-zero return code (utils.py:140-143).  It is built from the script
name and the return code only; stdout/stderr go to the logger, not into
the exception. -/
def workflowFailMessage (scriptName : String) (returncode : Int) : String :=
  ("Workflow ") ++ scriptName ++ (" failed with code ") ++ toString returncode ++
    (". See media.workflow logs for stdout/stderr details.")

/-- `run_workflow` (utils.py:73-145).  The subprocess itself is external:
its observable outcome is passed in as `outcome` (`none` models
`subprocess.TimeoutExpired`, `some c` a completed process).  Raised
`MediaPipelineError`s become `Except.error` carrying the exception
message. -/
def run_workflow (scriptExists : Bool) (scriptName : String)
    (timeoutSeconds : Nat) (outcome : Option WorkflowResult) :
    Except String WorkflowResult :=
  if !scriptExists then
    .error (("Workflow script not found: ") ++ scriptName)
  else
    match outcome with
    | none =>
      .error (("Workflow timed out after ") ++ toString timeoutSeconds ++
        ("s: ") ++ scriptName)
    | some completed =>
      if completed.returncode ≠ 0 then
        .error (workflowFailMessage scriptName completed.returncode)
      else
        .ok completed

/-! ## Media pipeline run (`src/media/base.py:86-150`) -/

/-- A JSON-ish metadata value (string or number), as stored in the
per-artifact metadata dict built by `BaseMediaPipeline.run`. -/
inductive MVal where
  | str (s : String)
  | num (n : Nat)
deriving DecidableEq, Repr

/-- A Python dict with `MVal` values: an association list with distinct
keys, kept in insertion order. -/
abbrev MetaDict := List (String × MVal)

/-- `d[k]` lookup on a metadata dict. -/
def dictGet? (d : MetaDict) (k : String) : Option MVal :=
  (d.find? (fun e => e.1 = k)).map (fun e => e.2)

/-- `d[k] = v` on a metadata dict: replace the value at the first
occurrence of the key (keeping its position), else append. -/
def dictInsert (d : MetaDict) (k : String) (v : MVal) : MetaDict :=
  if d.any (fun e => e.1 = k) then
    d.map (fun e => if e.1 = k then (e.1, v) else e)
  else d ++ [(k, v)]

/-- Python `d.update(e)`: assign every entry of `e` in order into `d`
(entries of `e` override colliding keys of `d`). -/
def dictUpdate (d e : MetaDict) : MetaDict :=
  e.foldl (fun acc kv => dictInsert acc kv.1 kv.2) d

/-- `relative_to_root` (utils.py:148-150): POSIX string of
`path.relative_to(root)`.  Python raises `ValueError` when `root` is
not a prefix of `path`; that branch is `none`. -/
def relative_to_root (p root : FPath) : Option String :=
  if root.isPrefixOf p then some (posixOf (p.drop root.length)) else none

/-- `MediaArtifact` (base.py:23-30).  `file_path`/`preview_path` carry
the `Option` of `relative_to_root` (always `some` on the paths the
pipeline constructs). -/
structure MediaArtifact where
  artifact_type : String
  file_path : Option String
  preview_path : Option String
  metadata : MetaDict
deriving DecidableEq, Repr

/-- The dictionary returned by `BaseMediaPipeline.run` (base.py:144-150). -/
structure PipelineRunOutput where
  artifacts : List MediaArtifact
  stdout : String
  stderr : String
  duration_seconds : Nat
  run_directory : Option String
deriving DecidableEq, Repr

/-- `BaseMediaPipeline.run` (base.py:86-150).  `runName` models the
`<prompt_id>_<UTC timestamp>` directory name; `pre` is the snapshot
taken before the workflow, `after` the state of the run directory once
the workflow finished; `outcome` is the subprocess outcome as for
`run_workflow`.  A raised `MediaPipelineError` is an `Except.error`
carrying the message. -/
def pipeline_run (prompt_type scriptName : String) (scriptExists : Bool)
    (output_root : FPath) (runName : String) (timeoutSeconds : Nat)
    (outcome : Option WorkflowResult) (pre after : Snap)
    (prompt_id : Nat) (callerMeta : Option MetaDict) :
    Except String PipelineRunOutput :=
  let run_dir : FPath := output_root ++ [prompt_type, runName]
  match run_workflow scriptExists scriptName timeoutSeconds outcome with
  | .error e => .error e
  | .ok result =>
    let new_files := detect_new_files run_dir after pre
    if new_files.isEmpty then
      .error (("No artifacts were produced for prompt ") ++ toString prompt_id ++
        (" using script ") ++ scriptName)
    else
      let base : MetaDict :=
        [(("script"), MVal.str scriptName),
         (("duration_seconds"), MVal.num result.duration_seconds)]
      let artifact_metadata :=
        match callerMeta with
        | some m => dictUpdate base m
        | none => base
      .ok
        { artifacts :=
            new_files.map (fun p =>
              { artifact_type := prompt_type
                file_path := relative_to_root p output_root
                preview_path :=
                  if prompt_type = ("image") then relative_to_root p output_root
                  else none
                metadata := artifact_metadata })
          stdout := result.stdout
          stderr := result.stderr
          duration_seconds := result.duration_seconds
          run_directory := relative_to_root run_dir output_root }

/-! ## Database model: writings, prompt_writings, and the tool-writings
fast path of `run_generation_session`
(`src/poets_cron_service_v3.py:1514-1579`) -/

/-- SQL LIKE with a `%needle%` pattern: substring containment. -/
def containsSub (needle hay : String) : Bool :=
  hay.data.tails.any (fun t => needle.data.isPrefixOf t)

/-- A row of the `writings` table, restricted to the columns the
modelled queries touch.  `created_minutes_ago` is the row's age in
minutes at the instant the query runs (the SQLite comparison
`created_date >= datetime('now', '-W minutes')` becomes
`created_minutes_ago ≤ W`). -/
structure Writing where
  id : Nat
  content_type : String
  created_minutes_ago : Nat
  notes : String
  source_prompt_id : Option Nat
deriving DecidableEq, Repr

/-- A row of the `prompt_writings` junction table
(poets_cron_service_v3.py:560-573). -/
structure PromptWriting where
  prompt_id : Nat
  writing_id : Nat
  writing_order : Nat
deriving DecidableEq, Repr

/-- The slice of database state the modelled operations read and write. -/
structure DBState where
  prompts : List PromptRow
  writings : List Writing
  prompt_writings : List PromptWriting
deriving DecidableEq, Repr

/-- The SELECT at poets_cron_service_v3.py:1526-1533: writings of the
expected content type, created within the window, whose notes contain
the text `Prompt #<id>`, ordered by id ascending. -/
def toolSavedWritings (db : DBState) (ptype : String) (window : Nat)
    (pid : Nat) : List Writing :=
  List.insertionSort (fun a b => a.id ≤ b.id)
    (db.writings.filter (fun w =>
      w.content_type = ptype ∧ w.created_minutes_ago ≤ window ∧
        containsSub (("Prompt #") ++ toString pid) w.notes))

/-- `INSERT OR IGNORE INTO prompt_writings`: keep the table unchanged
when a `(prompt_id, writing_id)` row already exists (the UNIQUE
constraint), else append the new row. -/
def insertOrIgnorePW (links : List PromptWriting) (pid wid ord : Nat) :
    List PromptWriting :=
  if links.any (fun l => l.prompt_id = pid ∧ l.writing_id = wid) then links
  else links ++ [{ prompt_id := pid, writing_id := wid, writing_order := ord }]

/-- `UPDATE writings SET source_prompt_id = ? WHERE id = ?`. -/
def setSourcePrompt (ws : List Writing) (pid wid : Nat) : List Writing :=
  ws.map (fun w => if w.id = wid then { w with source_prompt_id := some pid } else w)

/-- `UPDATE prompts SET output_reference = ? WHERE id = ?`. -/
def setOutputReference (ps : List PromptRow) (pid wid : Nat) : List PromptRow :=
  ps.map (fun p => if p.id = pid then { p with output_reference := some wid } else p)

/-- `update_prompt_status` as a table update (`UPDATE ... WHERE id = ?`). -/
def updatePromptStatusTable (ps : List PromptRow) (pid : Nat) (status : String)
    (error_message artifact_status artifact_metadata : Option String)
    (now : String) : List PromptRow :=
  ps.map (fun p =>
    if p.id = pid then
      update_prompt_status p status error_message artifact_status
        artifact_metadata now
    else p)

/-- The loop at poets_cron_service_v3.py:1541-1552: for each writing id,
in query order, `INSERT OR IGNORE` the junction row with
`writing_order` = its position, and set the writing's
`source_prompt_id`. -/
def linkWritingsLoop (db : DBState) (pid : Nat) (ids : List Nat) : DBState :=
  (ids.enum).foldl
    (fun d ow =>
      { d with
          prompt_writings := insertOrIgnorePW d.prompt_writings pid ow.2 ow.1
          writings := setSourcePrompt d.writings pid ow.2 })
    db

/-- The tool-writings fast path of `run_generation_session`
(poets_cron_service_v3.py:1517-1579) for a structured prompt: query for
writings saved directly by the `generate_*_json` tools within the last
`max_processing_time_minutes + 5` minutes; when any exist, link them
all, point `output_reference` at the last one, mark the prompt
`completed` with `artifact_status = 'pending'`, and skip transcript
extraction.  The returned flag is true exactly when this path was taken
(so the transcript extraction fallback is skipped). -/
def harvest_tool_writings_step (db : DBState) (pid : Nat) (ptype : String)
    (maxProcessingMinutes : Nat) (now : String) : DBState × Bool :=
  let window := maxProcessingMinutes + 5
  let results := toolSavedWritings db ptype window pid
  if results.isEmpty then (db, false)
  else
    let ids := results.map (fun w => w.id)
    let db1 := linkWritingsLoop db pid ids
    let db2 :=
      { db1 with
          prompts := setOutputReference db1.prompts pid ((ids.getLast?).getD 0) }
    let db3 :=
      { db2 with
          prompts :=
            updatePromptStatusTable db2.prompts pid ("completed") none
              (some ("pending")) none now }
    (db3, true)

/-! ## JSON harvester (`src/poets_cron_service_v3.py:1263-1395`) -/

/-- The `{` character, written via its code point. -/
def lbrace : Char := Char.ofNat 123

/-- The `}` character, written via its code point. -/
def rbrace : Char := Char.ofNat 125

/-- Python regex `\s` (ASCII range): space, tab, newline, carriage
return, form feed, vertical tab. -/
def isPySpace (c : Char) : Bool :=
  c = (' ') ∨ c = ('\t') ∨ c = ('\n') ∨ c = ('\r') ∨
    c = (Char.ofNat 12) ∨ c = (Char.ofNat 11)

/-- Python `str.strip()`: drop leading and trailing whitespace. -/
def pyStrip (s : List Char) : List Char :=
  ((s.dropWhile isPySpace).reverse.dropWhile isPySpace).reverse

/-- The literal opening of a fenced JSON block. -/
def fencedOpen : List Char := ("```json").data

/-- The literal closing fence. -/
def closeFence : List Char := ("```").data

/-- Non-greedy search for the group end of the regex
`` ```json\s*(\{.*?\})\s*``` ``: starting inside the group, take
characters up to and including the first `}` that is followed by
optional whitespace and the closing fence; also return the rest of the
input after that closing fence. -/
def findCloseNG (acc : List Char) : List Char → Option (List Char × List Char)
  | [] => none
  | c :: rest =>
    if c = rbrace ∧ closeFence.isPrefixOf (rest.dropWhile isPySpace) then
      some (acc ++ [c], (rest.dropWhile isPySpace).drop closeFence.length)
    else findCloseNG (acc ++ [c]) rest

/-- One attempted match of strategy 1's regex at the head of the input:
the fence opening, optional whitespace, then the non-greedy braced
group.  Returns the captured group and the rest of the input after the
whole match. -/
def matchFencedAt (s : List Char) : Option (List Char × List Char) :=
  if fencedOpen.isPrefixOf s then
    let s1 := (s.drop fencedOpen.length).dropWhile isPySpace
    match s1 with
    | c :: _ => if c = lbrace then findCloseNG [] s1 else none
    | [] => none
  else none

/-- `re.findall` scan for strategy 1: try the pattern at each position
left to right; on a match, emit the group and continue after the match,
else advance one character.  Fuelled by the input length. -/
def findFencedAux : Nat → List Char → List (List Char)
  | 0, _ => []
  | _, [] => []
  | fuel + 1, s =>
    match matchFencedAt s with
    | some (cand, rest) => cand :: findFencedAux fuel rest
    | none => findFencedAux fuel (s.drop 1)

/-- All strategy-1 candidates of a message
(poets_cron_service_v3.py:1288-1291). -/
def findFenced (s : List Char) : List (List Char) :=
  findFencedAux s.length s

/-- Split off the leading run of non-brace characters
(regex `[^{}]*`). -/
def spanNonBrace (s : List Char) : List Char × List Char :=
  (s.takeWhile (fun c => c ≠ lbrace ∧ c ≠ rbrace),
   s.dropWhile (fun c => c ≠ lbrace ∧ c ≠ rbrace))

/-- The deterministic core of the regex
`\{[^{}]*(?:\{[^{}]*\}[^{}]*)*\}` after its opening brace and first
`[^{}]*` run: at `}` the starred group stops and the match closes; at
`{` one starred iteration `\{[^{}]*\}[^{}]*` must complete or the whole
match fails; at end of input the match fails.  Fuelled. -/
def braceLoopAux (fuel : Nat) (acc : List Char) (s : List Char) :
    Option (List Char × List Char) :=
  match fuel, s with
  | _, [] => none
  | 0, _ => none
  | fuel + 1, c :: r =>
    if c = rbrace then some (acc ++ [c], r)
    else if c = lbrace then
      let inner := spanNonBrace r
      match inner.2 with
      | c2 :: r3 =>
        if c2 = rbrace then
          let outer := spanNonBrace r3
          braceLoopAux fuel (acc ++ c :: inner.1 ++ c2 :: outer.1) outer.2
        else none
      | [] => none
    else none

/-- One attempted match of strategy 3's regex at the head of the input. -/
def matchBraceAt (s : List Char) : Option (List Char × List Char) :=
  match s with
  | c :: rest =>
    if c = lbrace then
      let first := spanNonBrace rest
      braceLoopAux s.length (c :: first.1) first.2
    else none
  | [] => none

/-- `re.findall` scan for strategy 3, analogous to `findFencedAux`. -/
def findBraceAux : Nat → List Char → List (List Char)
  | 0, _ => []
  | _, [] => []
  | fuel + 1, s =>
    match matchBraceAt s with
    | some (cand, rest) => cand :: findBraceAux fuel rest
    | none => findBraceAux fuel (s.drop 1)

/-- All strategy-3 candidates of a message
(poets_cron_service_v3.py:1297-1300). -/
def findBrace (s : List Char) : List (List Char) :=
  findBraceAux s.length s

/-- The candidates one message contributes, in source order
(poets_cron_service_v3.py:1283-1300): fenced blocks, then the whole
stripped message when it starts with `{`, then the brace-regex
matches.  An empty message contributes nothing (the `continue` at
line 1285-1286 coincides with all three strategies being empty). -/
def messageCandidates (content : List Char) : List (List Char) :=
  findFenced content ++
    (let st := pyStrip content
     if st.head? = some lbrace then [st] else []) ++
    findBrace content

/-- Candidate accumulation over the whole transcript: messages are
visited newest-first (`for message in reversed(groupchat.messages)`),
and every message's candidates are appended. -/
def harvestCandidates (msgs : List (List Char)) : List (List Char) :=
  (msgs.reverse).flatMap messageCandidates

/-- The required top-level JSON keys per expected prompt type
(poets_cron_service_v3.py:1313-1329); any other type requires nothing. -/
def required_fields (ptype : String) : List String :=
  if ptype = ("lyrics_prompt") then
    [("title"), ("genre"), ("mood"), ("tempo"), ("structure")]
  else if ptype = ("image_prompt") then [("prompt")]
  else []

/-- Outcome of `_extract_and_validate_json`: the Python triples
`(True, json_str, writing_id)` and `(False, None, None)`. -/
inductive HarvestResult where
  | success (json : List Char) (writing_id : Int)
  | failure
deriving DecidableEq, Repr

/-- A candidate is valid when it parses as a JSON object and its
top-level keys include every required field.  `jparse` abstracts
`json.loads` restricted to the harvester's use: `some keys` is a parse
to an object with those top-level keys, `none` a `JSONDecodeError`. -/
def candidateValid (jparse : List Char → Option (List String))
    (ptype : String) (c : List Char) : Bool :=
  match jparse c with
  | none => false
  | some keys => (required_fields ptype).all (fun f => keys.contains f)

/-- The validation loop at poets_cron_service_v3.py:1307-1395, tried on
each accumulated candidate in order: parse failures and missing
required fields `continue`; the first valid candidate is saved
(`save` abstracts `save_to_sqlite_database`, returning the new
writing id); a non-positive writing id returns the failure triple
immediately, otherwise the success triple is returned.  An exhausted
candidate list is a failure. -/
def validateLoop (jparse : List Char → Option (List String))
    (save : List Char → Int) (ptype : String) :
    List (List Char) → HarvestResult
  | [] => .failure
  | c :: rest =>
    match jparse c with
    | none => validateLoop jparse save ptype rest
    | some keys =>
      if (required_fields ptype).all (fun f => keys.contains f) then
        let wid := save c
        if wid > 0 then .success c wid else .failure
      else validateLoop jparse save ptype rest

/-- `PoetsService._extract_and_validate_json`
(poets_cron_service_v3.py:1263-1395): accumulate candidates from the
transcript newest-first, then run the validation loop.  (The database
linking performed on success is modelled separately by
`linkWritingsLoop`; this function returns the Python function's
observable result triple.) -/
def extract_and_validate_json (jparse : List Char → Option (List String))
    (save : List Char → Int) (msgs : List (List Char)) (ptype : String) :
    HarvestResult :=
  validateLoop jparse save ptype (harvestCandidates msgs)

/-! ## Process lock (`src/poets_cron_service_v3.py:57-138`)

Two processes run `ProcessLock.acquire` on the same lock-file path.
Each acquire is the sequence of atomic filesystem steps the source
performs: the stale/corrupt cleanup (`_cleanup_stale_lock`,
lines 105-128), the `os.open(..., O_CREAT | O_WRONLY | O_EXCL)`
exclusive create (line 72), and the payload write + fsync
(lines 74-81).  The lock file at the shared path is `absent`, or was
created by one process and is either still empty (the window between
its `os.open` and its `os.write`) or holds that process's JSON
payload.  A written payload parses and carries
`timeout_at = now + timeout_minutes`, which is in the future for the
modelled concurrent attempts, so cleanup leaves it alone; an empty
file fails `json.load`, and cleanup's `except` branch unlinks it as
corrupt.  A process whose exclusive create hits an existing file
returns `False` (`FileExistsError`); writes after a successful create
go to that process's own file descriptor, so they change the shared
path only while the path still holds the file this process created. -/

/-- The shared lock-file path: absent, or a file created by process
`owner` that has (`written = true`) or has not yet received the JSON
payload. -/
inductive LockFile where
  | absent
  | createdBy (owner : Bool) (written : Bool)
deriving DecidableEq, Repr

/-- Local state of one process running `acquire`: its next step and,
once finished, the boolean `acquire` returned. -/
structure LockProc where
  pc : Nat
  result : Option Bool
deriving DecidableEq, Repr

/-- The two processes (indexed by a Bool) and the shared path. -/
structure LockSys where
  file : LockFile
  proc0 : LockProc
  proc1 : LockProc
deriving DecidableEq, Repr

/-- One atomic step of process `who`.  pc 0: `_cleanup_stale_lock`
(unlink an unparsable (still empty) file; keep a written, unexpired
payload; nothing to do when absent).  pc 1: exclusive create (absent →
create empty and continue; present → `FileExistsError`, return
false).  pc 2: write + fsync the payload, return true.  pc ≥ 3: done. -/
def lockStep (who : Bool) (sys : LockSys) : LockSys :=
  let p := if who then sys.proc1 else sys.proc0
  let setP := fun (sys' : LockSys) (p' : LockProc) =>
    if who then { sys' with proc1 := p' } else { sys' with proc0 := p' }
  match p.pc with
  | 0 =>
    let file' :=
      match sys.file with
      | .absent => LockFile.absent
      | .createdBy _ false => LockFile.absent
      | .createdBy o true => LockFile.createdBy o true
    setP { sys with file := file' } { p with pc := 1 }
  | 1 =>
    match sys.file with
    | .absent =>
      setP { sys with file := LockFile.createdBy who false } { p with pc := 2 }
    | _ => setP sys { pc := 3, result := some false }
  | 2 =>
    let file' :=
      if sys.file = LockFile.createdBy who false then LockFile.createdBy who true
      else sys.file
    setP { sys with file := file' } { pc := 3, result := some true }
  | _ => sys

/-- Run an interleaving: at each schedule entry the named process takes
its next atomic step. -/
def runLockSched (sched : List Bool) (sys : LockSys) : LockSys :=
  sched.foldl (fun s w => lockStep w s) sys

/-- Both processes at the start of `acquire`, no lock file on disk. -/
def lockInit : LockSys :=
  { file := .absent
    proc0 := { pc := 0, result := none }
    proc1 := { pc := 0, result := none } }

/-- The interleaving that loses mutual exclusion: process 0 runs its
cleanup and its exclusive create; process 1 then runs its cleanup —
which reads process 0's still-empty lock file, fails to parse it, and
unlinks it as corrupt — creates the (now absent) file exclusively,
and writes its payload; process 0 finally writes through its own,
already-unlinked descriptor. -/
def raceSched : List Bool := [false, false, true, true, true, false]

/-! ## Lock acquisition failure handling
(`src/poets_cron_service_v3.py:65-90, 130-138, 1772-1875`) -/

/-- The possible outcomes of the `os.open(..., O_EXCL)` call inside
`acquire`: success, `FileExistsError` (another process holds the
lock), or any other `OSError` (permission denied, I/O failure, ...). -/
inductive CreateOutcome where
  | created
  | existsAlready
  | osError (msg : String)
deriving DecidableEq, Repr

/-- `ProcessLock.acquire` (poets_cron_service_v3.py:65-90) as a
function of the create outcome: `FileExistsError` returns `False`
(line 85-87), and the final `except Exception` (lines 88-90) prints
the error and also returns `False`. -/
def processLock_acquire (outcome : CreateOutcome) : Bool :=
  match outcome with
  | .created => true
  | .existsAlready => false
  | .osError _ => false

/-- How a `--queue` invocation ends. -/
inductive TickExit where
  | ranWork
  | skippedBusy
  | fatal
deriving DecidableEq, Repr

/-- `run_queue_processor`'s handling of lock acquisition
(poets_cron_service_v3.py:1777-1875): `ProcessLock.__enter__`
(lines 130-134) raises `RuntimeError` whenever `acquire` returned
`False`; the `except RuntimeError` arm logs "Skipping execution" and
returns normally (exit status 0). -/
def queueTickLockOutcome (outcome : CreateOutcome) : TickExit :=
  if processLock_acquire outcome then .ranWork else .skippedBusy

/-- Process exit status for each tick outcome: every arm of
`run_queue_processor` returns normally, so `main` exits 0. -/
def tickExitCode (t : TickExit) : Nat :=
  match t with
  | .ranWork => 0
  | .skippedBusy => 0
  | .fatal => 1

/-! ## Endpoint-contact trace of a `--queue` invocation
(`src/poets_cron_service_v3.py:144-165, 195-289, 389-538, 1618-1718,
1772-1875`)

A `--queue` run constructs `PoetsService` — whose `__init__` calls
`_initialize_media_support` when media is enabled — and then calls
`run_queue_processor`.  The model records, in order, the externally
visible contacts these make: the environment-variable check, the GET
`<base_url>/models` model-list probe, the GET
`<media_host>/system_stats` health probe, an LLM generation session,
and a media workflow subprocess.  Database reads are modelled by the
two queue queries over the `prompts` table; per-prompt work inside the
two processing loops is summarised to the endpoint contacts it
performs. -/

/-- An externally visible contact made during an invocation. -/
inductive Endpoint where
  | envCheck
  | modelListProbe
  | mediaHealthProbe
  | llmSession
  | mediaWorkflow
deriving DecidableEq, Repr

/-- The configuration fields `run_queue_processor` consults, with the
outcome of each external check it might make. -/
structure SvcConfig where
  envOk : Bool
  baseUrlPresent : Bool
  validateModelsOnStartup : Bool
  modelsValid : Bool
deriving DecidableEq, Repr

/-- The media section of the configuration together with the outcomes
of media initialisation: whether any pipeline script was configured
and found, whether `ensure_media_schema` succeeded, the optional
ComfyUI host, and whether its health endpoint answers 200. -/
structure MediaConfig where
  enabled : Bool
  host : Option String
  healthy : Bool
  pipelinesConfigured : Bool
  schemaOk : Bool
deriving DecidableEq, Repr

/-- `_check_comfyui_health` (poets_cron_service_v3.py:389-403): with no
configured host it returns True without any request; otherwise it GETs
`<host>/system_stats` and reports whether the status was 200. -/
def check_comfyui_health (host : Option String) (healthy : Bool) :
    List Endpoint × Bool :=
  match host with
  | none => ([], true)
  | some _ => ([.mediaHealthProbe], healthy)

/-- `_initialize_media_support` (poets_cron_service_v3.py:195-289), run
from `__init__` when `media.enabled`: build pipelines, ensure the
media schema, then perform the lightweight health check.  Returns the
contacts made and the resulting `media_available` flag. -/
def initialize_media_support (mc : MediaConfig) : List Endpoint × Bool :=
  if ¬ mc.enabled then ([], false)
  else if ¬ mc.pipelinesConfigured then ([], false)
  else if ¬ mc.schemaOk then ([], false)
  else check_comfyui_health mc.host mc.healthy

/-- Comparison implementing `ORDER BY priority ASC, created_at ASC`. -/
def promptOrder (a b : PromptRow) : Prop :=
  a.priority < b.priority ∨ (a.priority = b.priority ∧ a.created_at ≤ b.created_at)

instance : DecidableRel promptOrder := fun a b =>
  if h1 : a.priority < b.priority then isTrue (Or.inl h1)
  else if h2 : a.priority = b.priority ∧ a.created_at ≤ b.created_at then
    isTrue (Or.inr h2)
  else isFalse (fun hc => hc.elim h1 h2)

/-- `get_unprocessed_prompts` (poets_cron_service_v3.py:405-450):
`status = 'unprocessed'` ordered by `(priority, created_at)`,
`LIMIT 5`. -/
def get_unprocessed_prompts (ps : List PromptRow) : List PromptRow :=
  (List.insertionSort promptOrder
    (ps.filter (fun p => p.status = ("unprocessed")))).take 5

/-- The structured prompt types (`image_prompt`, `lyrics_prompt`). -/
def structuredTypes : List String := [("image_prompt"), ("lyrics_prompt")]

/-- `get_pending_media_prompts` (poets_cron_service_v3.py:490-538):
`status = 'completed' AND artifact_status = 'pending' AND prompt_type
IN ('image_prompt','lyrics_prompt')`, same ordering, `LIMIT 5`. -/
def get_pending_media_prompts (ps : List PromptRow) : List PromptRow :=
  (List.insertionSort promptOrder
    (ps.filter (fun p =>
      p.status = ("completed") ∧ p.artifact_status = some ("pending") ∧
        structuredTypes.contains p.prompt_type))).take 5

/-- The keys of the default `media_prompt_type_map`
(poets_cron_service_v3.py:253-258). -/
def mediaTypeMapKeys : List String :=
  [("image"), ("music"), ("audio"), ("voice")]

/-- Contacts of `process_media_prompt` (poets_cron_service_v3.py:
1618-1718) for one prompt: unsupported types and missing pipelines
fail the prompt without contacting anything; when `media_available`
is false the health check is retried (contacting the host when one is
configured) and the workflow runs only if it now reports healthy. -/
def process_media_prompt_events (mc : MediaConfig) (avail : Bool)
    (p : PromptRow) : List Endpoint :=
  if ¬ mediaTypeMapKeys.contains p.prompt_type then []
  else if ¬ mc.pipelinesConfigured then []
  else if avail then [.mediaWorkflow]
  else
    let hc := check_comfyui_health mc.host mc.healthy
    if hc.2 then hc.1 ++ [.mediaWorkflow] else hc.1

/-- Contacts of the first processing loop
(poets_cron_service_v3.py:1825-1847) for one prompt: structured types
and plain text run a generation session against the LLM backend;
direct media types run the media pipeline when media is enabled. -/
def text_prompt_events (mc : MediaConfig) (avail : Bool)
    (p : PromptRow) : List Endpoint :=
  if structuredTypes.contains p.prompt_type then [.llmSession]
  else if mc.enabled ∧ mediaTypeMapKeys.contains p.prompt_type then
    process_media_prompt_events mc avail p
  else [.llmSession]

/-- The contacts `run_queue_processor` (poets_cron_service_v3.py:
1772-1875) makes after acquiring the lock: query the two queues; when
both are empty return immediately (lines 1789-1791); otherwise, when
text prompts exist, check the environment, resolve the backend URL,
and (when configured) probe the model list — aborting the tick when
any of these fail — then process the text prompts and the pending
media prompts. -/
def run_queue_processor_events (cfg : SvcConfig) (mc : MediaConfig)
    (avail : Bool) (ps : List PromptRow) : List Endpoint :=
  let prompts := get_unprocessed_prompts ps
  let media_prompts := if avail then get_pending_media_prompts ps else []
  if prompts.isEmpty ∧ media_prompts.isEmpty then []
  else
    let work :=
      prompts.flatMap (text_prompt_events mc avail) ++
        media_prompts.flatMap (process_media_prompt_events mc avail)
    if ¬ prompts.isEmpty then
      Endpoint.envCheck ::
        (if ¬ cfg.envOk then []
         else if ¬ cfg.baseUrlPresent then []
         else if cfg.validateModelsOnStartup then
           Endpoint.modelListProbe :: (if cfg.modelsValid then work else [])
         else work)
    else work

/-- The contacts of a whole `--queue` invocation: service construction
(media initialisation included) followed by the queue processor, which
reads the `media_available` flag initialisation produced. -/
def full_queue_invocation (cfg : SvcConfig) (mc : MediaConfig)
    (ps : List PromptRow) : List Endpoint :=
  let init := initialize_media_support mc
  init.1 ++ run_queue_processor_events cfg mc init.2 ps

/-! ## Concrete fixtures used by witness theorems -/

/-- A concrete instance of the abstract JSON parser: recognises one
specific object with top-level key `prompt`. -/
def jparseFix : List Char → Option (List String) := fun c =>
  if c = ("\x7b\"prompt\": \"a cat\"\x7d").data then some [("prompt")]
  else none

/-- A concrete save function standing in for `save_to_sqlite_database`:
every save yields writing id 3. -/
def saveFix : List Char → Int := fun _ => 3

/-- A two-message transcript whose newest message carries a fenced JSON
block. -/
def msgsFix : List (List Char) :=
  [("no json here").data,
   ("Result: ```json \x7b\"prompt\": \"a cat\"\x7d ``` done").data]

/-- A small database: one prompt and two tool-saved lyrics writings
referencing it (ids 5 and 3, deliberately out of id order), plus an
unrelated writing. -/
def dbFix : DBState :=
  { prompts :=
      [{ id := 1, prompt_text := ("write a song"),
         prompt_type := ("lyrics_prompt"), status := ("processing")
         priority := 5, created_at := 0, processed_at := some ("t0")
         completed_at := none, output_reference := none
         error_message := none, artifact_status := some ("pending")
         artifact_metadata := none }]
    writings :=
      [{ id := 5, content_type := ("lyrics_prompt")
         created_minutes_ago := 3
         notes := ("Structured JSON prompt for offline media generation (Prompt #1)")
         source_prompt_id := none },
       { id := 3, content_type := ("lyrics_prompt")
         created_minutes_ago := 1
         notes := ("Generated by generate_lyrics_json (Prompt #1)")
         source_prompt_id := none },
       { id := 9, content_type := ("poem"), created_minutes_ago := 2
         notes := ("unrelated"), source_prompt_id := none }]
    prompt_writings := [] }

/-! ## Theorems -/

/-- C6: when the `artifact_metadata` argument of `update_prompt_status`
is not supplied, the stored `artifact_metadata` column is left
unchanged, whatever the other arguments are. -/
theorem update_prompt_status_preserves_artifact_metadata
    (row : PromptRow) (status : String)
    (error_message artifact_status : Option String) (now : String) :
    (update_prompt_status row status error_message artifact_status
        none now).artifact_metadata = row.artifact_metadata := by
  unfold update_prompt_status
  cases error_message <;> cases artifact_status <;> dsimp only <;>
    split_ifs <;> rfl

/-- C10: for any status other than `failed` with no `error_message`
argument, the UPDATE explicitly sets `error_message` to NULL, erasing
any previously stored error. -/
theorem update_prompt_status_clears_error
    (row : PromptRow) (status : String)
    (artifact_status artifact_metadata : Option String) (now : String)
    (h : status ≠ ("failed")) :
    (update_prompt_status row status none artifact_status
        artifact_metadata now).error_message = none := by
  unfold update_prompt_status
  cases artifact_status <;> cases artifact_metadata <;> dsimp only <;>
    split_ifs <;> simp_all

theorem update_prompt_status_clears_error_witness :
    (("processing") : String) ≠ ("failed") ∧
      (update_prompt_status
          { id := 7, prompt_text := ("p"), prompt_type := ("text")
            status := ("failed"), priority := 5, created_at := 0
            processed_at := none, completed_at := none
            output_reference := none, error_message := some ("old error")
            artifact_status := none, artifact_metadata := none }
          ("processing") none none none ("t1")).error_message = none :=
  ⟨by decide,
   update_prompt_status_clears_error _ (("processing")) none none (("t1"))
     (by decide)⟩

/-- C8 counterexample: the `MediaPipelineError` value `run_workflow`
raises on a non-zero return code is the same for two subprocess runs
whose stdout/stderr differ, so it cannot carry their (differing) 2 KiB
tails. -/
theorem run_workflow_error_ignores_output :
    run_workflow true ("wf.py") 600
        (some { returncode := 1, stdout := ("boom"), stderr := ("bang")
                duration_seconds := 5 }) =
      run_workflow true ("wf.py") 600
        (some { returncode := 1, stdout := ("quiet"), stderr := ("silent")
                duration_seconds := 5 }) ∧
      tailChars 2048 ("boom") ≠ tailChars 2048 ("quiet") := by
  exact ⟨rfl, by decide⟩

/-- C8 (amended): a workflow subprocess completing with a non-zero
return code makes `run_workflow` raise a `MediaPipelineError` whose
message carries the script name and the return code and points at the
logs; the subprocess's stdout and stderr are logged but not attached
to the error. -/
theorem run_workflow_nonzero_raises
    (scriptName : String) (t : Nat) (c : WorkflowResult)
    (h : c.returncode ≠ 0) :
    run_workflow true scriptName t (some c) =
      .error (workflowFailMessage scriptName c.returncode) := by
  simp [run_workflow, h]

theorem run_workflow_nonzero_raises_witness :
    (({ returncode := 1, stdout := ("o"), stderr := ("e")
        duration_seconds := 2 } : WorkflowResult).returncode ≠ 0) ∧
      run_workflow true ("wf.py") 600
          (some { returncode := 1, stdout := ("o"), stderr := ("e")
                  duration_seconds := 2 }) =
        .error (workflowFailMessage ("wf.py") 1) :=
  ⟨by decide, run_workflow_nonzero_raises (("wf.py")) 600 _ (by decide)⟩

/-- C9 counterexample: an `OSError` during lock-file creation (for
example a permission failure) is caught inside `acquire`, which
returns `False`, so the queue processor treats it exactly as "busy"
and exits normally with status 0 — it is not fatal. -/
theorem queue_tick_oserror_treated_as_busy :
    queueTickLockOutcome (CreateOutcome.osError ("EACCES: permission denied")) =
        TickExit.skippedBusy ∧
      tickExitCode
          (queueTickLockOutcome
            (CreateOutcome.osError ("EACCES: permission denied"))) = 0 := by
  exact ⟨rfl, rfl⟩

/-- C9 (amended): when acquisition finds the lock busy the queue
processor logs and exits normally with status 0; and every other
acquisition error is caught by `acquire` (which returns `False`), so
it is likewise treated as busy — no lock acquisition outcome is
fatal. -/
theorem queue_tick_lock_failure_never_fatal (o : CreateOutcome) :
    (o = CreateOutcome.existsAlready →
        queueTickLockOutcome o = TickExit.skippedBusy ∧
          tickExitCode (queueTickLockOutcome o) = 0) ∧
      queueTickLockOutcome o ≠ TickExit.fatal := by
  cases o <;>
    simp [queueTickLockOutcome, processLock_acquire, tickExitCode]

theorem queue_tick_lock_failure_never_fatal_witness :
    (queueTickLockOutcome CreateOutcome.existsAlready = TickExit.skippedBusy ∧
        tickExitCode (queueTickLockOutcome CreateOutcome.existsAlready) = 0) ∧
      queueTickLockOutcome (CreateOutcome.osError ("disk I/O error")) ≠
        TickExit.fatal :=
  ⟨(queue_tick_lock_failure_never_fatal CreateOutcome.existsAlready).1 rfl,
   (queue_tick_lock_failure_never_fatal
      (CreateOutcome.osError ("disk I/O error"))).2⟩

/-- C1: under the interleaving in which process 1 runs its stale-lock
cleanup between process 0's exclusive create and payload write,
cleanup reads process 0's still-empty lock file, fails to parse it,
unlinks it as corrupt, and process 1 then also creates the lock file
exclusively — so both concurrent `acquire` calls return `True`,
violating mutual exclusion. -/
theorem processLock_race_both_acquire :
    (runLockSched raceSched lockInit).proc0.result = some true ∧
      (runLockSched raceSched lockInit).proc1.result = some true := by
  exact ⟨rfl, rfl⟩

theorem lookupSnap_eq_of_mem :
    ∀ (before : Snap), (before.map Prod.fst).Nodup →
      ∀ (p : FPath) (m : Nat × Nat), (p, m) ∈ before →
        lookupSnap before p = some m := by
  intro before
  induction before with
  | nil => intro _ p m hm; cases hm
  | cons e rest ih =>
    intro hnd p m hm
    rcases List.mem_cons.mp hm with he | hr
    · subst he
      simp [lookupSnap]
    · have hkey : p ∈ rest.map Prod.fst :=
        List.mem_map.mpr ⟨(p, m), hr, rfl⟩
      have hne : ¬ (e.1 = p) := by
        intro hEq
        exact (List.nodup_cons.mp hnd).1 (hEq ▸ hkey)
      have htail := ih (List.nodup_cons.mp hnd).2 p m hr
      simpa [lookupSnap, List.find?_cons_of_neg, hne] using htail

theorem lookupSnap_eq_none (before : Snap) (p : FPath)
    (h : p ∉ before.map Prod.fst) : lookupSnap before p = none := by
  have : before.find? (fun e => e.1 = p) = none := by
    rw [List.find?_eq_none]
    intro x hx
    simp only [decide_eq_true_eq]
    intro hEq
    exact h (List.mem_map.mpr ⟨x, hx, hEq⟩)
  simp [lookupSnap, this]

/-- C7: the artifact detector reports precisely the files that are new
or whose `(mtime_ns, size_bytes)` pair differs from the `before`
snapshot; in particular, when the directory contents after the run are
the `before` snapshot plus exactly one new file, the diff reports
exactly that file. -/
theorem detect_new_files_spec
    (root f : FPath) (mf : Nat × Nat) (before after : Snap)
    (hnd : (before.map Prod.fst).Nodup)
    (hperm : after.Perm ((f, mf) :: before))
    (hnew : f ∉ before.map Prod.fst) :
    detect_new_files root after before = [root ++ f] ∧
      ∀ (after2 : Snap) (p : FPath),
        p ∈ detect_new_files root after2 before ↔
          ∃ rel m, (rel, m) ∈ after2 ∧ lookupSnap before rel ≠ some m ∧
            p = root ++ rel := by
  constructor
  · have hfval : lookupSnap before f = none := lookupSnap_eq_none before f hnew
    have hrest :
        before.filter (fun e => decide (lookupSnap before e.1 ≠ some e.2)) =
          [] := by
      rw [List.filter_eq_nil_iff]
      intro e he
      simp only [decide_eq_true_eq, not_not]
      exact lookupSnap_eq_of_mem before hnd e.1 e.2 he
    have hcons :
        ((f, mf) :: before).filter
            (fun e => decide (lookupSnap before e.1 ≠ some e.2)) =
          [(f, mf)] := by
      have hTrue :
          (fun e => decide (lookupSnap before e.1 ≠ some e.2)) (f, mf) = true := by
        simp [hfval]
      rw [List.filter_cons, if_pos hTrue, hrest]
    have hpf :
        after.filter (fun e => decide (lookupSnap before e.1 ≠ some e.2)) =
          [(f, mf)] :=
      List.perm_singleton.mp
        (hcons ▸ hperm.filter (fun e => decide (lookupSnap before e.1 ≠ some e.2)))
    unfold detect_new_files
    rw [hpf]
    rfl
  · intro after2 p
    constructor
    · intro hp
      rcases List.mem_map.mp hp with ⟨e, he, rfl⟩
      rcases List.mem_filter.mp he with ⟨hmem, hpred⟩
      exact ⟨e.1, e.2, hmem, by simpa using hpred, rfl⟩
    · rintro ⟨rel, m, hmem, hne, rfl⟩
      exact List.mem_map.mpr
        ⟨(rel, m), List.mem_filter.mpr ⟨hmem, by simpa using hne⟩, rfl⟩

theorem detect_new_files_spec_witness :
    (([([("a.png")], ((1 : Nat), (10 : Nat))),
        ([("b.png")], (2, 20))] : Snap).map Prod.fst).Nodup ∧
      (([([("a.png")], ((1 : Nat), (10 : Nat))), ([("c.png")], (3, 30)),
          ([("b.png")], (2, 20))] : Snap).Perm
        (([("c.png")], (3, 30)) ::
          [([("a.png")], (1, 10)), ([("b.png")], (2, 20))])) ∧
      ([("c.png")] : FPath) ∉
        (([([("a.png")], ((1 : Nat), (10 : Nat))),
            ([("b.png")], (2, 20))] : Snap).map Prod.fst) ∧
      detect_new_files [("out")]
          [([("a.png")], (1, 10)), ([("c.png")], (3, 30)),
            ([("b.png")], (2, 20))]
          [([("a.png")], (1, 10)), ([("b.png")], (2, 20))] =
        [[("out"), ("c.png")]] :=
  ⟨by decide, by decide, by decide,
   (detect_new_files_spec [("out")] [("c.png")] (3, 30)
       [([("a.png")], (1, 10)), ([("b.png")], (2, 20))]
       [([("a.png")], (1, 10)), ([("c.png")], (3, 30)),
         ([("b.png")], (2, 20))]
       (by decide) (by decide) (by decide)).1⟩

theorem dictGet?_mapVal (d : MetaDict) (k k2 : String) (v : MVal)
    (hne : k ≠ k2) :
    dictGet? (d.map (fun e => if e.1 = k2 then (e.1, v) else e)) k =
      dictGet? d k := by
  induction d with
  | nil => rfl
  | cons x d' ih =>
    have hfst : (if x.1 = k2 then (x.1, v) else x).1 = x.1 := by
      split <;> rfl
    by_cases hx : x.1 = k
    · have hx2 : ¬ (x.1 = k2) := by rw [hx]; exact hne
      have hfx : (if x.1 = k2 then (x.1, v) else x) = x := if_neg hx2
      unfold dictGet?
      rw [List.map_cons, hfx,
        List.find?_cons_of_pos _ (by simpa using hx),
        List.find?_cons_of_pos _ (by simpa using hx)]
    · unfold dictGet?
      rw [List.map_cons,
        List.find?_cons_of_neg _ (by simpa [hfst] using hx),
        List.find?_cons_of_neg _ (by simpa using hx)]
      exact ih

theorem dictGet?_insert_ne (d : MetaDict) (k k2 : String) (v : MVal)
    (hne : k ≠ k2) :
    dictGet? (dictInsert d k2 v) k = dictGet? d k := by
  unfold dictInsert
  split_ifs with hany
  · exact dictGet?_mapVal d k k2 v hne
  · unfold dictGet?
    rw [List.find?_append]
    have hsingle :
        List.find? (fun e => decide (e.1 = k)) [(k2, v)] = none := by
      rw [List.find?_cons_of_neg _
        (by simpa using fun h : k2 = k => hne h.symm)]
      rfl
    rw [hsingle]
    cases hh : d.find? (fun e => decide (e.1 = k)) <;> simp [hh]

theorem dictGet?_update_of_not_mem :
    ∀ (e d : MetaDict) (k : String), k ∉ e.map Prod.fst →
      dictGet? (dictUpdate d e) k = dictGet? d k := by
  intro e
  induction e with
  | nil => intro d k _; rfl
  | cons kv rest ih =>
    intro d k hk
    have h1 : k ∉ rest.map Prod.fst := by
      intro hmem
      exact hk (List.mem_cons_of_mem _ hmem)
    have h2 : k ≠ kv.1 := by
      intro hEq
      exact hk (hEq ▸ List.mem_cons_self _ _)
    have hstep : dictUpdate d (kv :: rest) =
        dictUpdate (dictInsert d kv.1 kv.2) rest := rfl
    rw [hstep, ih (dictInsert d kv.1 kv.2) k h1,
      dictGet?_insert_ne d k kv.1 kv.2 h2]

theorem relative_to_root_append (root q : FPath) :
    relative_to_root (root ++ q) root = some (posixOf q) := by
  have hpre : root.isPrefixOf (root ++ q) = true := by
    rw [List.isPrefixOf_iff_prefix]
    exact List.prefix_append root q
  simp [relative_to_root, hpre, List.drop_left]

/-- C3 counterexample: a successful run whose caller-supplied metadata
contains a `script` key produces artifacts whose metadata carries the
caller's value, not the script filename — Python's `dict.update` lets
caller metadata override the base entries. -/
theorem pipeline_run_metadata_override :
    pipeline_run ("image") ("wf.py") true [("root")] ("7_20260101T000000")
        600
        (some { returncode := 0, stdout := (""), stderr := ("")
                duration_seconds := 5 })
        [] [([("a.png")], (1, 10))] 7
        (some [(("script"), MVal.str ("spoof"))]) =
      .ok { artifacts :=
              [{ artifact_type := ("image")
                 file_path := some ("image/7_20260101T000000/a.png")
                 preview_path := some ("image/7_20260101T000000/a.png")
                 metadata := [(("script"), MVal.str ("spoof")),
                              (("duration_seconds"), MVal.num 5)] }]
            stdout := ("")
            stderr := ("")
            duration_seconds := 5
            run_directory := some ("image/7_20260101T000000") } ∧
      dictGet? [(("script"), MVal.str ("spoof")),
                (("duration_seconds"), MVal.num 5)] ("script") ≠
        some (MVal.str ("wf.py")) := by
  exact ⟨rfl, by decide⟩

/-- C3 (amended): every successful media pipeline run that detects at
least one new file returns artifacts whose `file_path` is the file's
path relative to the configured output root in POSIX forward-slash
form, whose `preview_path` equals `file_path` for an image pipeline
and is null otherwise (in particular for audio), and whose metadata is
the dict of script filename and run duration updated with the
caller-supplied metadata — caller entries overriding those two keys on
collision, so both are present whenever the caller metadata does not
use them. -/
theorem pipeline_run_artifacts
    (ptype scriptName : String) (output_root : FPath) (runName : String)
    (t : Nat) (c : WorkflowResult) (pre after : Snap) (pid : Nat)
    (cm : MetaDict)
    (hrc : c.returncode = 0)
    (hne :
      ¬ (detect_new_files (output_root ++ [ptype, runName]) after pre).isEmpty) :
    ∃ out,
      pipeline_run ptype scriptName true output_root runName t (some c)
          pre after pid (some cm) = .ok out ∧
      out.artifacts ≠ [] ∧
      out.run_directory = some (posixOf [ptype, runName]) ∧
      ∀ a ∈ out.artifacts, ∃ rel m,
        (rel, m) ∈ after ∧ lookupSnap pre rel ≠ some m ∧
        a.artifact_type = ptype ∧
        a.file_path = some (posixOf ([ptype, runName] ++ rel)) ∧
        (ptype = ("image") → a.preview_path = a.file_path) ∧
        (ptype ≠ ("image") → a.preview_path = none) ∧
        a.metadata =
          dictUpdate
            [(("script"), MVal.str scriptName),
             (("duration_seconds"), MVal.num c.duration_seconds)] cm ∧
        (("script") ∉ cm.map Prod.fst →
          dictGet? a.metadata ("script") = some (MVal.str scriptName)) ∧
        (("duration_seconds") ∉ cm.map Prod.fst →
          dictGet? a.metadata ("duration_seconds") =
            some (MVal.num c.duration_seconds)) := by
  have hwf : run_workflow true scriptName t (some c) = .ok c := by
    simp [run_workflow, hrc]
  have hbase :
      dictGet?
        [(("script"), MVal.str scriptName),
         (("duration_seconds"), MVal.num c.duration_seconds)] ("script") =
        some (MVal.str scriptName) := rfl
  have hbase2 :
      dictGet?
        [(("script"), MVal.str scriptName),
         (("duration_seconds"), MVal.num c.duration_seconds)]
          ("duration_seconds") = some (MVal.num c.duration_seconds) := rfl
  unfold pipeline_run
  rw [hwf]
  dsimp only
  rw [if_neg hne]
  refine ⟨_, rfl, ?_, ?_, ?_⟩
  · intro hnil
    apply hne
    rw [List.isEmpty_iff]
    exact List.map_eq_nil_iff.mp hnil
  · exact relative_to_root_append output_root [ptype, runName]
  · intro a ha
    rcases List.mem_map.mp ha with ⟨p, hp, rfl⟩
    rcases List.mem_map.mp hp with ⟨e, he, rfl⟩
    rcases List.mem_filter.mp he with ⟨hmem, hpred⟩
    refine ⟨e.1, e.2, hmem, by simpa using hpred, rfl, ?_, ?_, ?_, rfl, ?_, ?_⟩
    · show relative_to_root ((output_root ++ [ptype, runName]) ++ e.1)
          output_root = _
      rw [List.append_assoc]
      exact relative_to_root_append output_root ([ptype, runName] ++ e.1)
    · intro himg
      simp [himg]
    · intro himg
      simp [himg]
    · intro hks
      exact
        (dictGet?_update_of_not_mem cm
            [(("script"), MVal.str scriptName),
             (("duration_seconds"), MVal.num c.duration_seconds)]
            ("script") hks).trans hbase
    · intro hks
      exact
        (dictGet?_update_of_not_mem cm
            [(("script"), MVal.str scriptName),
             (("duration_seconds"), MVal.num c.duration_seconds)]
            ("duration_seconds") hks).trans hbase2

theorem pipeline_run_artifacts_witness :
    (({ returncode := 0, stdout := (""), stderr := ("")
        duration_seconds := 4 } : WorkflowResult).returncode = 0) ∧
      ¬ (detect_new_files ([("root")] ++ [("audio"), ("3_t")])
            [([("s.wav")], (5, 6))] []).isEmpty ∧
      ∃ out,
        pipeline_run ("audio") ("aw.py") true [("root")] ("3_t") 60
            (some { returncode := 0, stdout := (""), stderr := ("")
                    duration_seconds := 4 })
            [] [([("s.wav")], (5, 6))] 3 (some []) = .ok out ∧
        out.artifacts ≠ [] ∧
        out.run_directory = some (posixOf [("audio"), ("3_t")]) ∧
        ∀ a ∈ out.artifacts, ∃ rel m,
          (rel, m) ∈ ([([("s.wav")], (5, 6))] : Snap) ∧
          lookupSnap [] rel ≠ some m ∧
          a.artifact_type = ("audio") ∧
          a.file_path = some (posixOf ([("audio"), ("3_t")] ++ rel)) ∧
          ((("audio") : String) = ("image") → a.preview_path = a.file_path) ∧
          ((("audio") : String) ≠ ("image") → a.preview_path = none) ∧
          a.metadata =
            dictUpdate
              [(("script"), MVal.str ("aw.py")),
               (("duration_seconds"), MVal.num 4)] [] ∧
          (("script") ∉ ([] : MetaDict).map Prod.fst →
            dictGet? a.metadata ("script") = some (MVal.str ("aw.py"))) ∧
          (("duration_seconds") ∉ ([] : MetaDict).map Prod.fst →
            dictGet? a.metadata ("duration_seconds") =
              some (MVal.num 4)) :=
  ⟨rfl, by decide,
   pipeline_run_artifacts ("audio") ("aw.py") [("root")] ("3_t") 60
     { returncode := 0, stdout := (""), stderr := ("")
       duration_seconds := 4 }
     [] [([("s.wav")], (5, 6))] 3 [] rfl (by decide)⟩

/-- C2 counterexample: with media support enabled (pipelines
configured, schema in order, a ComfyUI host set), a `--queue`
invocation on a completely empty queue still performs the media
health probe — `_initialize_media_support` runs it during service
construction, before the queue is even consulted. -/
theorem empty_tick_still_probes_health :
    get_unprocessed_prompts [] = [] ∧
      get_pending_media_prompts [] = [] ∧
      Endpoint.mediaHealthProbe ∈
        full_queue_invocation
          { envOk := true, baseUrlPresent := true
            validateModelsOnStartup := true, modelsValid := true }
          { enabled := true, host := some ("http://comfy:8188")
            healthy := true, pipelinesConfigured := true, schemaOk := true }
          [] := by
  exact ⟨rfl, rfl, by decide⟩

/-- C2 (amended): on a tick where `get_unprocessed_prompts` and
`get_pending_media_prompts` both return empty lists,
`run_queue_processor` itself contacts nothing — no environment check,
no model-list probe, no LLM session, no media endpoint; the only
contact the whole `--queue` invocation can make is the single ComfyUI
health probe performed during service initialisation, which happens
whenever media support is enabled with configured pipelines and a
host, regardless of queue contents. -/
theorem empty_tick_contacts
    (cfg : SvcConfig) (mc : MediaConfig) (avail : Bool)
    (ps : List PromptRow)
    (h1 : get_unprocessed_prompts ps = [])
    (h2 : get_pending_media_prompts ps = []) :
    run_queue_processor_events cfg mc avail ps = [] ∧
      ∀ e ∈ full_queue_invocation cfg mc ps,
        e = Endpoint.mediaHealthProbe := by
  have hrun : ∀ av, run_queue_processor_events cfg mc av ps = [] := by
    intro av
    unfold run_queue_processor_events
    rw [h1, h2]
    cases av <;> simp
  have hinit :
      ∀ e ∈ (initialize_media_support mc).1,
        e = Endpoint.mediaHealthProbe := by
    intro e he
    unfold initialize_media_support at he
    split_ifs at he <;> try simp at he
    unfold check_comfyui_health at he
    rcases hh : mc.host with _ | hst <;> rw [hh] at he <;> simp at he
    exact he
  have hfull :
      full_queue_invocation cfg mc ps = (initialize_media_support mc).1 := by
    unfold full_queue_invocation
    dsimp only
    rw [hrun, List.append_nil]
  refine ⟨hrun avail, ?_⟩
  intro e he
  rw [hfull] at he
  exact hinit e he

theorem empty_tick_contacts_witness :
    get_unprocessed_prompts
        [{ id := 2, prompt_text := ("done already"), prompt_type := ("text")
           status := ("completed"), priority := 5, created_at := 1
           processed_at := none, completed_at := none
           output_reference := none, error_message := none
           artifact_status := none, artifact_metadata := none }] = [] ∧
      get_pending_media_prompts
        [{ id := 2, prompt_text := ("done already"), prompt_type := ("text")
           status := ("completed"), priority := 5, created_at := 1
           processed_at := none, completed_at := none
           output_reference := none, error_message := none
           artifact_status := none, artifact_metadata := none }] = [] ∧
      (run_queue_processor_events
          { envOk := true, baseUrlPresent := true
            validateModelsOnStartup := true, modelsValid := true }
          { enabled := true, host := some ("http://comfy:8188")
            healthy := true, pipelinesConfigured := true, schemaOk := true }
          true
          [{ id := 2, prompt_text := ("done already"), prompt_type := ("text")
             status := ("completed"), priority := 5, created_at := 1
             processed_at := none, completed_at := none
             output_reference := none, error_message := none
             artifact_status := none, artifact_metadata := none }] = [] ∧
        ∀ e ∈ full_queue_invocation
            { envOk := true, baseUrlPresent := true
              validateModelsOnStartup := true, modelsValid := true }
            { enabled := true, host := some ("http://comfy:8188")
              healthy := true, pipelinesConfigured := true, schemaOk := true }
            [{ id := 2, prompt_text := ("done already")
               prompt_type := ("text"), status := ("completed")
               priority := 5, created_at := 1, processed_at := none
               completed_at := none, output_reference := none
               error_message := none, artifact_status := none
               artifact_metadata := none }],
          e = Endpoint.mediaHealthProbe) :=
  ⟨by decide, by decide,
   empty_tick_contacts
     { envOk := true, baseUrlPresent := true
       validateModelsOnStartup := true, modelsValid := true }
     { enabled := true, host := some ("http://comfy:8188")
       healthy := true, pipelinesConfigured := true, schemaOk := true }
     true
     [{ id := 2, prompt_text := ("done already"), prompt_type := ("text")
        status := ("completed"), priority := 5, created_at := 1
        processed_at := none, completed_at := none
        output_reference := none, error_message := none
        artifact_status := none, artifact_metadata := none }]
     (by decide) (by decide)⟩

theorem validateLoop_find (jparse : List Char → Option (List String))
    (save : List Char → Int) (ptype : String) (hsave : ∀ c, save c > 0) :
    ∀ cands, validateLoop jparse save ptype cands =
      match cands.find? (candidateValid jparse ptype) with
      | some c => HarvestResult.success c (save c)
      | none => HarvestResult.failure := by
  intro cands
  induction cands with
  | nil => rfl
  | cons c rest ih =>
    rcases hj : jparse c with _ | keys
    · have hcv : candidateValid jparse ptype c = false := by
        unfold candidateValid
        rw [hj]
      simp only [validateLoop, hj]
      rw [List.find?_cons_of_neg _ (by simp [hcv])]
      exact ih
    · by_cases hall :
        ((required_fields ptype).all (fun f => keys.contains f)) = true
      · have hcv : candidateValid jparse ptype c = true := by
          unfold candidateValid
          rw [hj]
          exact hall
        simp only [validateLoop, hj, hall, if_true]
        rw [if_pos (hsave c), List.find?_cons_of_pos _ hcv]
      · have hcv : candidateValid jparse ptype c = false := by
          unfold candidateValid
          rw [hj]
          exact Bool.not_eq_true _ ▸ hall
        simp only [validateLoop, hj]
        rw [if_neg hall, List.find?_cons_of_neg _ (by simp [hcv])]
        exact ih

/-- C4: the JSON harvester scans messages newest-first, accumulating
candidates from fenced ```json blocks, whole messages starting with a
brace, and balanced-brace substrings (all embodied in
`harvestCandidates`); it returns the first accumulated candidate that
both parses as JSON and contains the required keys for the expected
prompt type (`prompt` for image, `title`/`genre`/`mood`/`tempo`/
`structure` for lyrics), skipping candidates that fail parsing or the
schema, and reports failure when no candidate succeeds (assuming the
database save of the winning candidate returns a positive writing
id). -/
theorem extract_json_first_valid_wins
    (jparse : List Char → Option (List String)) (save : List Char → Int)
    (msgs : List (List Char)) (ptype : String) (hsave : ∀ c, save c > 0) :
    extract_and_validate_json jparse save msgs ptype =
      match (harvestCandidates msgs).find? (candidateValid jparse ptype) with
      | some c => HarvestResult.success c (save c)
      | none => HarvestResult.failure := by
  unfold extract_and_validate_json
  exact validateLoop_find jparse save ptype hsave (harvestCandidates msgs)

theorem extract_json_first_valid_wins_witness :
    (∀ c, saveFix c > 0) ∧
      (harvestCandidates msgsFix).find? (candidateValid jparseFix ("image_prompt")) =
        some (("\x7b\"prompt\": \"a cat\"\x7d").data) ∧
      extract_and_validate_json jparseFix saveFix msgsFix ("image_prompt") =
        match (harvestCandidates msgsFix).find?
            (candidateValid jparseFix ("image_prompt")) with
        | some c => HarvestResult.success c (saveFix c)
        | none => HarvestResult.failure :=
  ⟨by intro c; unfold saveFix; decide, by decide,
   extract_json_first_valid_wins jparseFix saveFix msgsFix ("image_prompt")
     (by intro c; unfold saveFix; decide)⟩

theorem insertOrIgnorePW_mem (links : List PromptWriting)
    (pid wid ord : Nat) :
    ∃ l ∈ insertOrIgnorePW links pid wid ord,
      l.prompt_id = pid ∧ l.writing_id = wid := by
  unfold insertOrIgnorePW
  split_ifs with hany
  · rcases List.any_eq_true.mp hany with ⟨l, hl, hprop⟩
    exact ⟨l, hl, by simpa using hprop⟩
  · exact ⟨{ prompt_id := pid, writing_id := wid, writing_order := ord },
      List.mem_append_right _ (List.mem_singleton.mpr rfl), rfl, rfl⟩

theorem insertOrIgnorePW_mono (links : List PromptWriting)
    (pid wid ord : Nat) (l : PromptWriting) (hl : l ∈ links) :
    l ∈ insertOrIgnorePW links pid wid ord := by
  unfold insertOrIgnorePW
  split_ifs
  · exact hl
  · exact List.mem_append_left _ hl

theorem linkFold_pw_mono :
    ∀ (pl : List (Nat × Nat)) (db : DBState) (pid : Nat) (l : PromptWriting),
      l ∈ db.prompt_writings →
      l ∈ (pl.foldl
            (fun d ow =>
              { d with
                  prompt_writings :=
                    insertOrIgnorePW d.prompt_writings pid ow.2 ow.1
                  writings := setSourcePrompt d.writings pid ow.2 })
            db).prompt_writings := by
  intro pl
  induction pl with
  | nil => intro db pid l hl; exact hl
  | cons ow rest ih =>
    intro db pid l hl
    exact ih _ pid l (insertOrIgnorePW_mono _ pid ow.2 ow.1 l hl)

theorem linkFold_mem :
    ∀ (pl : List (Nat × Nat)) (db : DBState) (pid wid : Nat),
      wid ∈ pl.map Prod.snd →
      ∃ l ∈ (pl.foldl
              (fun d ow =>
                { d with
                    prompt_writings :=
                      insertOrIgnorePW d.prompt_writings pid ow.2 ow.1
                    writings := setSourcePrompt d.writings pid ow.2 })
              db).prompt_writings,
        l.prompt_id = pid ∧ l.writing_id = wid := by
  intro pl
  induction pl with
  | nil =>
    intro db pid wid h
    simp at h
  | cons ow rest ih =>
    intro db pid wid h
    rw [List.map_cons] at h
    rcases List.mem_cons.mp h with heq | hmem
    · rcases insertOrIgnorePW_mem db.prompt_writings pid ow.2 ow.1 with
        ⟨l, hlmem, hp, hw⟩
      refine ⟨l, linkFold_pw_mono rest _ pid l hlmem, hp, ?_⟩
      rw [hw, heq]
    · exact ih _ pid wid hmem

theorem linkFold_prompts :
    ∀ (pl : List (Nat × Nat)) (db : DBState) (pid : Nat),
      (pl.foldl
          (fun d ow =>
            { d with
                prompt_writings :=
                  insertOrIgnorePW d.prompt_writings pid ow.2 ow.1
                writings := setSourcePrompt d.writings pid ow.2 })
          db).prompts = db.prompts := by
  intro pl
  induction pl with
  | nil => intro db pid; rfl
  | cons ow rest ih =>
    intro db pid
    exact ih _ pid

theorem update_completed_pending (q : PromptRow) (now : String) :
    update_prompt_status q ("completed") none (some ("pending")) none now =
      { q with status := ("completed"), completed_at := some now
               error_message := none, artifact_status := some ("pending") } := by
  rfl

theorem updated_prompt_fields (ps : List PromptRow) (pid lastid : Nat)
    (now : String) (p : PromptRow)
    (hp : p ∈ updatePromptStatusTable (setOutputReference ps pid lastid) pid
        ("completed") none (some ("pending")) none now)
    (hid : p.id = pid) :
    p.output_reference = some lastid ∧ p.status = ("completed") ∧
      p.artifact_status = some ("pending") := by
  rcases List.mem_map.mp hp with ⟨q, hq, rfl⟩
  by_cases hqid : q.id = pid
  · rw [if_pos hqid, update_completed_pending]
    have hqref : q.output_reference = some lastid := by
      rcases List.mem_map.mp hq with ⟨q0, _, rfl⟩
      by_cases hq0 : q0.id = pid
      · rw [if_pos hq0]
      · rw [if_neg hq0] at hqid ⊢
        exact absurd hqid hq0
    exact ⟨hqref, rfl, rfl⟩
  · rw [if_neg hqid] at hid
    exact absurd hid hqid

/-- C5: before transcript extraction, the harvester queries for
writings created within the last `max_processing_time_minutes + 5`
minutes whose notes reference the prompt id and whose content type
matches; when any exist, the query result is in ascending writing-id
order, every returned writing ends up linked to the prompt in the
junction table, `output_reference` is set to the id of the last
(most recently) linked writing, the prompt is marked `completed` with
`artifact_status = 'pending'`, and transcript extraction is skipped. -/
theorem harvest_tool_writings_links_all
    (db : DBState) (pid : Nat) (ptype : String) (mpm : Nat) (now : String)
    (hnonempty : toolSavedWritings db ptype (mpm + 5) pid ≠ []) :
    (harvest_tool_writings_step db pid ptype mpm now).2 = true ∧
      (toolSavedWritings db ptype (mpm + 5) pid).Sorted
        (fun a b => a.id ≤ b.id) ∧
      (∀ w ∈ toolSavedWritings db ptype (mpm + 5) pid,
        ∃ l ∈ (harvest_tool_writings_step db pid ptype mpm
                  now).1.prompt_writings,
          l.prompt_id = pid ∧ l.writing_id = w.id) ∧
      ∃ wlast, (toolSavedWritings db ptype (mpm + 5) pid).getLast? =
          some wlast ∧
        ∀ p ∈ (harvest_tool_writings_step db pid ptype mpm now).1.prompts,
          p.id = pid →
            p.output_reference = some wlast.id ∧
              p.status = ("completed") ∧
              p.artifact_status = some ("pending") := by
  have hne2 : ¬ ((toolSavedWritings db ptype (mpm + 5) pid).isEmpty = true) := by
    simpa [List.isEmpty_iff] using hnonempty
  obtain ⟨wlast, hwlast⟩ :
      ∃ w, (toolSavedWritings db ptype (mpm + 5) pid).getLast? = some w := by
    cases hl : (toolSavedWritings db ptype (mpm + 5) pid).getLast? with
    | none => exact absurd (List.getLast?_eq_none_iff.mp hl) hnonempty
    | some w => exact ⟨w, rfl⟩
  have hlastid :
      (((toolSavedWritings db ptype (mpm + 5) pid).map
          (fun w => w.id)).getLast?).getD 0 = wlast.id := by
    rw [List.getLast?_map, hwlast]
    rfl
  unfold harvest_tool_writings_step
  dsimp only
  rw [if_neg hne2]
  refine ⟨rfl, ?_, ?_, ?_⟩
  · unfold toolSavedWritings
    haveI : IsTotal Writing (fun a b => a.id ≤ b.id) :=
      ⟨fun a b => Nat.le_total a.id b.id⟩
    haveI : IsTrans Writing (fun a b => a.id ≤ b.id) :=
      ⟨fun _ _ _ => Nat.le_trans⟩
    exact List.sorted_insertionSort _ _
  · intro w hw
    exact linkFold_mem
      ((toolSavedWritings db ptype (mpm + 5) pid).map (fun w => w.id)).enum
      db pid w.id
      (by rw [List.enum_map_snd]; exact List.mem_map_of_mem _ hw)
  · refine ⟨wlast, hwlast, ?_⟩
    intro p hp hid
    have hp2 :
        p ∈ updatePromptStatusTable
          (setOutputReference
            (linkWritingsLoop db pid
              ((toolSavedWritings db ptype (mpm + 5) pid).map
                (fun w => w.id))).prompts
            pid
            ((((toolSavedWritings db ptype (mpm + 5) pid).map
                (fun w => w.id)).getLast?).getD 0))
          pid ("completed") none (some ("pending")) none now := hp
    obtain ⟨h1, h2, h3⟩ :=
      updated_prompt_fields _ pid _ now p hp2 hid
    rw [hlastid] at h1
    exact ⟨h1, h2, h3⟩

theorem harvest_tool_writings_links_all_witness :
    toolSavedWritings dbFix ("lyrics_prompt") (15 + 5) 1 ≠ [] ∧
      ((harvest_tool_writings_step dbFix 1 ("lyrics_prompt") 15 ("t9")).2 =
          true ∧
        (toolSavedWritings dbFix ("lyrics_prompt") (15 + 5) 1).Sorted
          (fun a b => a.id ≤ b.id) ∧
        (∀ w ∈ toolSavedWritings dbFix ("lyrics_prompt") (15 + 5) 1,
          ∃ l ∈ (harvest_tool_writings_step dbFix 1 ("lyrics_prompt") 15
                    ("t9")).1.prompt_writings,
            l.prompt_id = 1 ∧ l.writing_id = w.id) ∧
        ∃ wlast,
          (toolSavedWritings dbFix ("lyrics_prompt") (15 + 5) 1).getLast? =
              some wlast ∧
            ∀ p ∈ (harvest_tool_writings_step dbFix 1 ("lyrics_prompt") 15
                      ("t9")).1.prompts,
              p.id = 1 →
                p.output_reference = some wlast.id ∧
                  p.status = ("completed") ∧
                  p.artifact_status = some ("pending")) :=
  ⟨by decide,
   harvest_tool_writings_links_all dbFix 1 ("lyrics_prompt") 15 ("t9")
     (by decide)⟩
